import Mathlib

/-!
Verification development for the WebReady image-derivative server
(`server.js`).  The JavaScript request handlers are shallowly embedded as
pure Lean functions: multipart form fields become `Option String`, image
buffers become an abstract type `β`, and the two external sharp calls
(`metadata()` and the resize/encode pipeline) become function parameters
returning `Except`.  JavaScript `NaN` flowing out of `parseInt` is
represented by `Option Int` (`none` = `NaN`); `Math.max`/`Math.min`
propagate `NaN`, hence propagate `none`.  JavaScript strings are modelled
as their character lists where the handlers inspect them.
-/

namespace WebReady

/-! ## JavaScript string and number primitives used by the handlers -/

/-- Whitespace as removed by `String.prototype.trim` and skipped by
`parseInt`. -/
def wsChar (c : Char) : Bool := c.isWhitespace

/-- Model of `s.trim()`. -/
def trimChars (cs : List Char) : List Char :=
  ((cs.dropWhile wsChar).reverse.dropWhile wsChar).reverse

/-- Model of `s.split(sep)` for a one-character separator: JavaScript split
always yields at least one (possibly empty) field. -/
def splitOnChar (sep : Char) : List Char → List (List Char)
  | [] => [[]]
  | c :: rest =>
    match splitOnChar sep rest with
    | [] => [[c]]
    | g :: gs => if c == sep then [] :: g :: gs else (c :: g) :: gs

/-- Numeric value of a decimal digit character. -/
def digitVal (c : Char) : Nat := c.toNat - 48

/-- Value of a string of decimal digits, most significant first. -/
def digitsToNat (ds : List Char) : Nat :=
  ds.foldl (fun a c => a * 10 + digitVal c) 0

/-- Model of JavaScript `parseInt(s, 10)`: skip leading whitespace, read an
optional sign, then the maximal prefix of decimal digits; `NaN` (here
`none`) when no digit is read.  (We idealise the result as an exact
integer; the handlers only ever use small widths and qualities.) -/
def jsParseInt (cs0 : List Char) : Option Int :=
  let cs := cs0.dropWhile wsChar
  match cs with
  | '-' :: rest =>
    let ds := rest.takeWhile Char.isDigit
    if ds.isEmpty then none else some (-(digitsToNat ds : Int))
  | '+' :: rest =>
    let ds := rest.takeWhile Char.isDigit
    if ds.isEmpty then none else some ((digitsToNat ds : Int))
  | _ =>
    let ds := cs.takeWhile Char.isDigit
    if ds.isEmpty then none else some ((digitsToNat ds : Int))

/-- Model of `(a || b)` on JavaScript numbers-or-undefined: `undefined`
and `0` are falsy. -/
def jsOr (a b : Option Int) : Option Int :=
  match a with
  | none => b
  | some n => if n = 0 then b else some n

/-- Interpolating a JavaScript number-or-undefined into a template
literal: `undefined` prints as `"undefined"`. -/
def optIntStr : Option Int → String
  | none => "undefined"
  | some n => toString n

/-- Model of `s.replace(/\.[^.]+$/, '')`: drop a final `.ext` segment
where `ext` is one or more non-dot characters; any other string is left
unchanged. -/
def stripExt (s : String) : String :=
  let r := s.data.reverse
  match r.findIdx? (fun c => c == '.') with
  | none => s
  | some i => if i = 0 then s else String.mk ((r.drop (i + 1)).reverse)

/-- Model of `array.join(sep)`. -/
def joinSep (sep : String) : List String → String
  | [] => ""
  | [x] => x
  | x :: y :: xs => x ++ sep ++ joinSep sep (y :: xs)

/-! ## Configuration Resolver (`server.js` lines 100-122 and 242-258) -/

/-- `String(body.widths ?? defaultBreakpoints.join(',')).split(',')
      .map(s => parseInt(s.trim(), 10))
      .filter(n => Number.isFinite(n) && n > 0)
      .sort((a, b) => a - b)`.
`filterMap` fuses the `map` with the `Number.isFinite` part of the filter,
since `parseInt` returns a finite number exactly when it does not return
`NaN`. -/
def parseWidths (raw : Option String) : List Int :=
  (((splitOnChar ',' (raw.getD "480,768,1200").data).filterMap
      (fun t => jsParseInt (trimChars t))).filter
      (fun n => 0 < n)).insertionSort (fun a b => a ≤ b)

/-- `String(body.formats ?? 'webp').split(',')
      .map(s => s.trim().toLowerCase())
      .filter(f => f === 'webp' || f === 'avif')`,
followed by `if (formats.length === 0) formats.push('webp')`. -/
def parseFormats (raw : Option String) : List String :=
  let l := ((splitOnChar ',' (raw.getD "webp").data).map
      (fun t => String.mk ((trimChars t).map Char.toLower))).filter
      (fun f => f == "webp" || f == "avif")
  if l.isEmpty then ["webp"] else l

/-- `Math.min(100, Math.max(1, parseInt(String(body.q ?? dflt), 10)))`.
A non-numeric input makes `parseInt` return `NaN`, and both `Math.max`
and `Math.min` propagate `NaN`, so the resolved quality is `NaN`
(`none`). -/
def resolveQuality (raw : Option String) (dflt : String) : Option Int :=
  match jsParseInt (raw.getD dflt).data with
  | none => none
  | some n => some (min 100 (max 1 n))

/-- `String(body.basename ?? file.originalname ?? 'image')
      .replace(/\.[^.]+$/, '')` (single-image endpoint, line 118). -/
def resolveBaseName (basename originalname : Option String) : String :=
  stripExt (basename.getD (originalname.getD "image"))

/-- The default `sizes` attribute template
`(max-width: W0px) 100vw, (max-width: (W1||W0)px) 50vw, WNpx`
(lines 121 and 316; applied to `widths` in single mode and to
`finalWidths` in batch mode). -/
def defaultSizes (ws : List Int) : String :=
  "(max-width: " ++ optIntStr (ws.get? 0) ++ "px) 100vw, (max-width: " ++
    optIntStr (jsOr (ws.get? 1) (ws.get? 0)) ++ "px) 50vw, " ++
    optIntStr (ws.get? (ws.length - 1)) ++ "px"

/-! ## Derivative Generator (`server.js` lines 144-168 and 289-313) -/

/-- One generated derivative, as pushed onto `outputs`:
`{ name, fmt, width, buf }`. -/
structure Output (β : Type) where
  name : String
  fmt : String
  width : Int
  buf : β
deriving DecidableEq

/-- The output file name template `{baseName}-{w}.{fmt}` used for both
`outputs[..].name` and `baseSrc`. -/
def fileNameFor (baseName : String) (w : Int) (fmt : String) : String :=
  baseName ++ "-" ++ toString w ++ "." ++ fmt

/-- One conditional encode step:
`if (formats.includes(fmt)) outputs.push({ name, fmt, width, buf: await pipeline.clone().fmt({quality}).toBuffer() })`.
`enc` is the sharp resize/encode pipeline already applied to this file's
buffer; a thrown sharp error is `Except.error`. -/
def encodeFmt {β : Type} (enc : Int → String → Option Int → Except String β)
    (baseName : String) (w : Int) (fmt : String) (q : Option Int)
    (want : Bool) : Except String (List (Output β)) :=
  if want then
    match enc w fmt q with
    | .error e => .error e
    | .ok b => .ok [⟨fileNameFor baseName w fmt, fmt, w, b⟩]
  else .ok []

/-- The body of the `for (const w of finalWidths)` loop: webp is attempted
before avif, and a sharp failure aborts the whole loop. -/
def encodeWidth {β : Type} (enc : Int → String → Option Int → Except String β)
    (baseName : String) (formats : List String) (qW qA : Option Int)
    (w : Int) : Except String (List (Output β)) :=
  match encodeFmt enc baseName w "webp" qW (formats.contains "webp") with
  | .error e => .error e
  | .ok os1 =>
    match encodeFmt enc baseName w "avif" qA (formats.contains "avif") with
    | .error e => .error e
    | .ok os2 => .ok (os1 ++ os2)

/-- The whole `try { for (const w of finalWidths) ... } catch` block:
outputs accumulate width by width; the first sharp failure makes the
whole generation fail and discards every buffer already produced. -/
def generateOutputs {β : Type}
    (enc : Int → String → Option Int → Except String β)
    (baseName : String) (formats : List String) (qW qA : Option Int) :
    List Int → Except String (List (Output β))
  | [] => .ok []
  | w :: ws =>
    match encodeWidth enc baseName formats qW qA w with
    | .error e => .error e
    | .ok os =>
      match generateOutputs enc baseName formats qW qA ws with
      | .error e => .error e
      | .ok rest => .ok (os ++ rest)

/-! ## Markup Composer (`server.js` lines 170-205 and 315-351) -/

/-- `for (const out of outputs) srcsets[out.fmt].push(out.name + ' ' + out.width + 'w')`,
restricted to one format bucket. -/
def srcsetEntries {β : Type} (fmt : String) (os : List (Output β)) :
    List String :=
  (os.filter (fun o => o.fmt == fmt)).map
    (fun o => o.name ++ " " ++ toString o.width ++ "w")

/-- The srcset entry text for a given width, as it appears in the
buckets: `{baseName}-{w}.{fmt} {w}w`. -/
def srcsetEntry (baseName : String) (fmt : String) (w : Int) : String :=
  fileNameFor baseName w fmt ++ " " ++ toString w ++ "w"

/-- `` `${baseName}-${finalWidths[0]}.{fmt}` `` — the fallback `src`;
an out-of-range index would interpolate as `undefined`. -/
def mkBaseSrc (baseName : String) (finalWidths : List Int) (fmt : String) :
    String :=
  baseName ++ "-" ++ optIntStr (finalWidths.get? 0) ++ "." ++ fmt

/-- The `imgSnippet` template literal (lines 177-185). -/
def mkImgSnippet (baseSrc srcset sizesIn : String) : String :=
  "<img\n  src=\"" ++ baseSrc ++ "\"\n  srcset=\"" ++ srcset ++
    "\"\n  sizes=\"" ++ sizesIn ++
    "\"\n  alt=\"\"\n  loading=\"lazy\"\n  decoding=\"async\"\n/>"

/-- One `<source>` entry of the `<picture>` template. -/
def mkSourceTag (typ srcset sizesIn : String) : String :=
  "<source type=\"image/" ++ typ ++ "\" srcset=\"" ++ srcset ++
    "\" sizes=\"" ++ sizesIn ++ "\">"

/-- The `pictureSnippet` ternary (lines 187-193): a `<picture>` container
whenever `formats.length > 1`, otherwise exactly `imgSnippet`.  Inside the
container each `<source>` line appears only when its bucket is non-empty
(`srcsets.avif.length ? ... : ''`). -/
def mkPictureSnippet (formats : List String) (avifSet webpSet : List String)
    (baseSrc sizesIn img : String) : String :=
  if 1 < formats.length then
    "<picture>\n  " ++
      (if avifSet.length = 0 then "" else
        mkSourceTag "avif" (joinSep ", " avifSet) sizesIn) ++
      "\n  " ++
      (if webpSet.length = 0 then "" else
        mkSourceTag "webp" (joinSep ", " webpSet) sizesIn) ++
      "\n  <img src=\"" ++ baseSrc ++
      "\" alt=\"\" loading=\"lazy\" decoding=\"async\">\n</picture>"
  else img

/-- The single-image `snippetDoc` template (lines 195-205). -/
def mkSnippetDoc (finalWidths : List Int) (formats : List String)
    (sizesIn img pic : String) : String :=
  "<!-- WebReady output -->\n<!-- widths: " ++
    joinSep ", " (finalWidths.map toString) ++ " | formats: " ++
    joinSep ", " formats ++ " -->\n<!-- sizes: " ++ sizesIn ++
    " -->\n\n<!-- Option A: <img> -->\n" ++ img ++
    "\n\n<!-- Option B: <picture> -->\n" ++ pic ++ "\n"

/-- The per-image `snippetDoc` template of the batch endpoint
(lines 342-351). -/
def mkBatchSnippetDoc (baseName : String) (finalWidths : List Int)
    (formats : List String) (img pic : String) : String :=
  "<!-- " ++ baseName ++ " -->\n<!-- widths: " ++
    joinSep ", " (finalWidths.map toString) ++ " | formats: " ++
    joinSep ", " formats ++ " -->\n\n" ++ img ++
    "\n\n<!-- Or use <picture> for multiple formats: -->\n" ++ pic ++ "\n\n"

/-- The `combinedSnippets` document of the batch endpoint (lines 375-381);
note the header interpolates `files.length`, the number of uploaded
files. -/
def mkCombinedSnippets (n : Nat) (widths : List Int)
    (formats : List String) (snips : List String) : String :=
  "<!-- WebReady Batch Output -->\n<!-- " ++ toString n ++
    " images processed -->" ++
    ("\n<!-- widths: " ++ joinSep ", " (widths.map toString) ++
     " | formats: " ++ joinSep ", " formats ++ " -->\n\n" ++
     joinSep "\n---\n\n" snips ++ "\n")

/-! ## The `/process` endpoint (`server.js` lines 89-222) -/

/-- One uploaded multipart file. -/
structure FilePart (β : Type) where
  originalname : Option String
  buffer : β
deriving DecidableEq

/-- The request surface of `POST /process` the handler reads. -/
structure SingleReq (β : Type) where
  file : Option (FilePart β)
  widths : Option String
  formats : Option String
  quality_webp : Option String
  quality_avif : Option String
  basename : Option String
  sizes : Option String
deriving DecidableEq

/-- The error responses of the single-image endpoint, in their abstract
form (`MissingInput`, `UnreadableMetadata`, `AllWidthsExceedOriginal`,
`EncodingFailure`). -/
inductive SingleErr where
  | missingFile
  | metadataError
  | noWidth
  | allWidthsExceedOriginal (origW : Int)
  | codecFailure
deriving DecidableEq

/-- The data a successful `/process` run assembles: the resolved
configuration values (the handler's local bindings) together with the
generated outputs and markup.  The produced zip holds each output buffer
under `output.name`, plus `snippet.html` = `snippetDoc`. -/
structure SingleResult (β : Type) where
  widths : List Int
  formats : List String
  qWebp : Option Int
  qAvif : Option Int
  baseName : String
  sizesIn : String
  finalWidths : List Int
  outputs : List (Output β)
  imgSnippet : String
  pictureSnippet : String
  snippetDoc : String
deriving DecidableEq

/-- The markup-composition tail shared by both handlers (lines 170-193
and 315-340): the srcset buckets, `baseSrc` and the two snippet
variants. -/
def composeMarkup {β : Type} (formats : List String) (baseName : String)
    (finalWidths : List Int) (sizesIn : String) (outputs : List (Output β)) :
    String × String :=
  let avifSet := srcsetEntries "avif" outputs
  let webpSet := srcsetEntries "webp" outputs
  let baseSrc :=
    if formats.contains "webp" then mkBaseSrc baseName finalWidths "webp"
    else mkBaseSrc baseName finalWidths "avif"
  let img := mkImgSnippet baseSrc
    (joinSep ", " (if formats.contains "webp" then webpSet else avifSet))
    sizesIn
  (img, mkPictureSnippet formats avifSet webpSet baseSrc sizesIn img)

/-- The success value assembled at the end of the `/process` handler. -/
def composeSingle {β : Type} (widths : List Int) (formats : List String)
    (qW qA : Option Int) (baseName sizesIn : String)
    (finalWidths : List Int) (outputs : List (Output β)) : SingleResult β :=
  let mk := composeMarkup formats baseName finalWidths sizesIn outputs
  { widths, formats, qWebp := qW, qAvif := qA, baseName, sizesIn,
    finalWidths, outputs, imgSnippet := mk.1, pictureSnippet := mk.2,
    snippetDoc := mkSnippetDoc finalWidths formats sizesIn mk.1 mk.2 }

/-- The `/process` handler.  `probe` models `sharp(buffer).metadata()`
(returning its optional `width` field), `enc` models the per-buffer
resize/re-encode pipeline. -/
def processSingle {β : Type} (probe : β → Except String (Option Int))
    (enc : β → Int → String → Option Int → Except String β)
    (req : SingleReq β) : Except SingleErr (SingleResult β) :=
  match req.file with
  | none => .error .missingFile
  | some file =>
    let widths := parseWidths req.widths
    let formats := parseFormats req.formats
    let qWebp := resolveQuality req.quality_webp "82"
    let qAvif := resolveQuality req.quality_avif "55"
    let baseName := resolveBaseName req.basename file.originalname
    let sizesIn := req.sizes.getD (defaultSizes widths)
    match probe file.buffer with
    | .error _ => .error .metadataError
    | .ok mw =>
      match mw with
      | none => .error .noWidth
      | some origW =>
        if origW = 0 then .error .noWidth
        else
          let finalWidths := widths.filter (fun w => w ≤ origW)
          if finalWidths.isEmpty then .error (.allWidthsExceedOriginal origW)
          else
            match generateOutputs (enc file.buffer) baseName formats
                qWebp qAvif finalWidths with
            | .error _ => .error .codecFailure
            | .ok outputs =>
              .ok (composeSingle widths formats qWebp qAvif baseName
                sizesIn finalWidths outputs)

/-! ## The `/process-batch` endpoint (`server.js` lines 233-389) -/

/-- The request surface of `POST /process-batch`.  The handler parses
`widths`, `formats`, `quality_webp` and `quality_avif` from the body; a
`basename` or `sizes` field sent by the client is never read. -/
structure BatchReq (β : Type) where
  files : List (FilePart β)
  widths : Option String
  formats : Option String
  quality_webp : Option String
  quality_avif : Option String
  basename : Option String
  sizes : Option String
deriving DecidableEq

/-- The error responses of the batch endpoint. -/
inductive BatchErr where
  | noFiles
  | noImagesProcessable
deriving DecidableEq

/-- The data of a successful batch run: every output across all processed
images (zipped under their names) plus the combined `snippets.html`. -/
structure BatchResult (β : Type) where
  allOutputs : List (Output β)
  allSnippets : List String
  combinedSnippets : String
deriving DecidableEq

/-- One iteration of the `for (const file of files)` loop: every
`continue` (metadata throw, missing width, zero width, no feasible width,
sharp throw) becomes `none`; a processed image yields its outputs and its
snippet document. -/
def processBatchImage {β : Type} (probe : β → Except String (Option Int))
    (enc : β → Int → String → Option Int → Except String β)
    (widths : List Int) (formats : List String) (qW qA : Option Int)
    (file : FilePart β) : Option (List (Output β) × String) :=
  let baseName := stripExt (file.originalname.getD "image")
  match probe file.buffer with
  | .error _ => none
  | .ok mw =>
    match mw with
    | none => none
    | some origW =>
      if origW = 0 then none
      else
        let finalWidths := widths.filter (fun w => w ≤ origW)
        if finalWidths.isEmpty then none
        else
          match generateOutputs (enc file.buffer) baseName formats
              qW qA finalWidths with
          | .error _ => none
          | .ok outputs =>
            let sizesIn := defaultSizes finalWidths
            let mk := composeMarkup formats baseName finalWidths sizesIn
              outputs
            some (outputs, mkBatchSnippetDoc baseName finalWidths formats
              mk.1 mk.2)

/-- The per-file results of the batch loop, in file order. -/
def batchResults {β : Type} (probe : β → Except String (Option Int))
    (enc : β → Int → String → Option Int → Except String β)
    (widths : List Int) (formats : List String) (qW qA : Option Int)
    (files : List (FilePart β)) : List (Option (List (Output β) × String)) :=
  files.map (processBatchImage probe enc widths formats qW qA)

/-- `allOutputs`: the concatenation, in file order, of the outputs pushed
by each successfully processed image. -/
def batchAllOutputs {β : Type} (probe : β → Except String (Option Int))
    (enc : β → Int → String → Option Int → Except String β)
    (widths : List Int) (formats : List String) (qW qA : Option Int)
    (files : List (FilePart β)) : List (Output β) :=
  (((batchResults probe enc widths formats qW qA files).filterMap id).map
    Prod.fst).flatten

/-- `allSnippets`: the snippet documents pushed by each successfully
processed image, in file order. -/
def batchAllSnippets {β : Type} (probe : β → Except String (Option Int))
    (enc : β → Int → String → Option Int → Except String β)
    (widths : List Int) (formats : List String) (qW qA : Option Int)
    (files : List (FilePart β)) : List String :=
  ((batchResults probe enc widths formats qW qA files).filterMap id).map
    Prod.snd

/-- The `/process-batch` handler. -/
def processBatch {β : Type} (probe : β → Except String (Option Int))
    (enc : β → Int → String → Option Int → Except String β)
    (req : BatchReq β) : Except BatchErr (BatchResult β) :=
  match req.files with
  | [] => .error .noFiles
  | f :: fs =>
    let widths := parseWidths req.widths
    let formats := parseFormats req.formats
    let qW := resolveQuality req.quality_webp "82"
    let qA := resolveQuality req.quality_avif "55"
    let allOutputs := batchAllOutputs probe enc widths formats qW qA (f :: fs)
    let allSnippets := batchAllSnippets probe enc widths formats qW qA (f :: fs)
    if allOutputs.isEmpty then .error .noImagesProcessable
    else .ok { allOutputs, allSnippets,
               combinedSnippets := mkCombinedSnippets (f :: fs).length widths
                 formats allSnippets }

/-! ## Structural lemmas about the Derivative Generator -/

/-- The name/format/width triple of an output, forgetting the buffer. -/
def outShape {β : Type} (o : Output β) : String × String × Int :=
  (o.name, o.fmt, o.width)

/-- The output triples one loop iteration pushes for width `w`. -/
def widthShape (baseName : String) (formats : List String) (w : Int) :
    List (String × String × Int) :=
  (if formats.contains "webp"
    then [(fileNameFor baseName w "webp", "webp", w)] else []) ++
  (if formats.contains "avif"
    then [(fileNameFor baseName w "avif", "avif", w)] else [])

theorem encodeFmt_ok_shape {β : Type}
    {enc : Int → String → Option Int → Except String β}
    {baseName w fmt q want os}
    (h : encodeFmt enc baseName w fmt q want = .ok os) :
    os.map outShape =
      if want then [(fileNameFor baseName w fmt, fmt, w)] else [] := by
  unfold encodeFmt at h
  cases want with
  | false => simp at h ⊢; simp [← h]
  | true =>
    simp at h ⊢
    cases he : enc w fmt q with
    | error e => rw [he] at h; cases h
    | ok b => rw [he] at h; cases h; simp [outShape]

theorem encodeWidth_ok_shape {β : Type}
    {enc : Int → String → Option Int → Except String β}
    {baseName formats qW qA w os}
    (h : encodeWidth enc baseName formats qW qA w = .ok os) :
    os.map outShape = widthShape baseName formats w := by
  unfold encodeWidth at h
  cases h1 : encodeFmt enc baseName w "webp" qW (formats.contains "webp") with
  | error e => rw [h1] at h; cases h
  | ok os1 =>
    rw [h1] at h
    cases h2 : encodeFmt enc baseName w "avif" qA (formats.contains "avif") with
    | error e => rw [h2] at h; cases h
    | ok os2 =>
      rw [h2] at h; cases h
      rw [widthShape, List.map_append, encodeFmt_ok_shape h1,
        encodeFmt_ok_shape h2]

theorem generateOutputs_ok_shape {β : Type}
    {enc : Int → String → Option Int → Except String β}
    {baseName formats qW qA} :
    ∀ {ws : List Int} {os : List (Output β)},
      generateOutputs enc baseName formats qW qA ws = .ok os →
      os.map outShape = ws.flatMap (widthShape baseName formats)
  | [], os, h => by cases h; simp
  | w :: ws, os, h => by
    unfold generateOutputs at h
    cases h1 : encodeWidth enc baseName formats qW qA w with
    | error e => rw [h1] at h; cases h
    | ok os1 =>
      rw [h1] at h
      cases h2 : generateOutputs enc baseName formats qW qA ws with
      | error e => rw [h2] at h; cases h
      | ok rest =>
        rw [h2] at h; cases h
        rw [List.map_append, encodeWidth_ok_shape h1,
          generateOutputs_ok_shape h2, List.flatMap_cons]

theorem encodeFmt_ok_want {β : Type}
    {enc : Int → String → Option Int → Except String β} {baseName w fmt q os}
    (h : encodeFmt enc baseName w fmt q true = .ok os) :
    ∃ b, enc w fmt q = .ok b := by
  unfold encodeFmt at h
  simp at h
  cases he : enc w fmt q with
  | error e => rw [he] at h; cases h
  | ok b => exact ⟨b, rfl⟩

theorem generateOutputs_ok_enc {β : Type}
    {enc : Int → String → Option Int → Except String β}
    {baseName formats qW qA} :
    ∀ {ws : List Int} {os : List (Output β)},
      generateOutputs enc baseName formats qW qA ws = .ok os →
      ∀ w ∈ ws,
        (formats.contains "webp" = true → ∃ b, enc w "webp" qW = .ok b) ∧
        (formats.contains "avif" = true → ∃ b, enc w "avif" qA = .ok b)
  | [], os, h => by simp
  | w0 :: ws, os, h => by
    unfold generateOutputs at h
    cases h1 : encodeWidth enc baseName formats qW qA w0 with
    | error e => rw [h1] at h; cases h
    | ok os1 =>
      rw [h1] at h
      cases h2 : generateOutputs enc baseName formats qW qA ws with
      | error e => rw [h2] at h; cases h
      | ok rest =>
        intro w hw
        rcases List.mem_cons.mp hw with rfl | hw2
        · unfold encodeWidth at h1
          constructor
          · intro hc
            rw [hc] at h1
            cases hf1 : encodeFmt enc baseName w "webp" qW true with
            | error e => rw [hf1] at h1; cases h1
            | ok o1 => exact encodeFmt_ok_want hf1
          · intro hc
            cases hf1 : encodeFmt enc baseName w "webp" qW
                (formats.contains "webp") with
            | error e => rw [hf1] at h1; cases h1
            | ok o1 =>
              rw [hf1, hc] at h1
              cases hf2 : encodeFmt enc baseName w "avif" qA true with
              | error e => rw [hf2] at h1; cases h1
              | ok o2 => exact encodeFmt_ok_want hf2
        · exact generateOutputs_ok_enc h2 w hw2

theorem generateOutputs_error_of_fail {β : Type}
    {enc : Int → String → Option Int → Except String β}
    {baseName formats qW qA} {ws : List Int} {w : Int} {e : String}
    (hw : w ∈ ws)
    (hfail : (formats.contains "webp" = true ∧ enc w "webp" qW = .error e)
           ∨ (formats.contains "avif" = true ∧ enc w "avif" qA = .error e)) :
    ∃ e2, generateOutputs enc baseName formats qW qA ws = .error e2 := by
  cases hg : generateOutputs enc baseName formats qW qA ws with
  | error e2 => exact ⟨e2, rfl⟩
  | ok os =>
    exfalso
    have henc := generateOutputs_ok_enc hg w hw
    rcases hfail with ⟨hc, he⟩ | ⟨hc, he⟩
    · obtain ⟨b, hb⟩ := henc.1 hc; rw [he] at hb; cases hb
    · obtain ⟨b, hb⟩ := henc.2 hc; rw [he] at hb; cases hb

theorem widthShape_mem {baseName formats w0 t}
    (h : t ∈ widthShape baseName formats w0) :
    t.2.2 = w0 ∧ t.1 = fileNameFor baseName w0 t.2.1 := by
  unfold widthShape at h
  rcases List.mem_append.mp h with h | h
  · by_cases hc : formats.contains "webp" = true
    · rw [if_pos hc] at h; simp at h; subst h; simp
    · rw [if_neg hc] at h; simp at h
  · by_cases hc : formats.contains "avif" = true
    · rw [if_pos hc] at h; simp at h; subst h; simp
    · rw [if_neg hc] at h; simp at h

theorem outputs_mem_props {β : Type}
    {enc : Int → String → Option Int → Except String β}
    {baseName formats qW qA} {ws : List Int} {os : List (Output β)}
    (h : generateOutputs enc baseName formats qW qA ws = .ok os) :
    ∀ o ∈ os, o.width ∈ ws ∧ o.name = fileNameFor baseName o.width o.fmt := by
  intro o ho
  have hs : outShape o ∈ ws.flatMap (widthShape baseName formats) := by
    rw [← generateOutputs_ok_shape h]
    exact List.mem_map_of_mem outShape ho
  obtain ⟨w0, hw0, hmem⟩ := List.mem_flatMap.mp hs
  obtain ⟨h1, h2⟩ := widthShape_mem hmem
  simp only [outShape] at h1 h2
  subst h1
  exact ⟨hw0, h2⟩

theorem widthShape_filter_count {baseName formats} {f : String} {w w0 : Int}
    (hf : f = "webp" ∨ f = "avif") (hc : formats.contains f = true) :
    ((widthShape baseName formats w0).filter
      (fun t => t.2.1 == f && t.2.2 == w)).length =
      if w0 = w then 1 else 0 := by
  rcases hf with rfl | rfl
  · unfold widthShape
    rw [List.filter_append, List.length_append, if_pos hc]
    by_cases ha : formats.contains "avif" = true
    · rw [if_pos ha]
      by_cases hw : w0 = w <;> simp [hw]
    · rw [if_neg ha]
      by_cases hw : w0 = w <;> simp [hw]
  · unfold widthShape
    rw [List.filter_append, List.length_append, if_pos hc]
    by_cases hb : formats.contains "webp" = true
    · rw [if_pos hb]
      by_cases hw : w0 = w <;> simp [hw]
    · rw [if_neg hb]
      by_cases hw : w0 = w <;> simp [hw]

theorem shapes_filter_count {baseName formats} {f : String} {w : Int}
    (hf : f = "webp" ∨ f = "avif") (hc : formats.contains f = true) :
    ∀ ws : List Int,
      ((ws.flatMap (widthShape baseName formats)).filter
        (fun t => t.2.1 == f && t.2.2 == w)).length = ws.count w
  | [] => by simp
  | w0 :: ws => by
    rw [List.flatMap_cons, List.filter_append, List.length_append,
      shapes_filter_count hf hc ws, widthShape_filter_count hf hc,
      List.count_cons]
    by_cases hw : w0 = w
    · simp [hw]; omega
    · have : ¬(w == w0) = true := by simp; exact fun h => hw h.symm
      simp [hw, this]

theorem outputs_filter_count {β : Type}
    {enc : Int → String → Option Int → Except String β}
    {baseName formats qW qA} {ws : List Int} {os : List (Output β)}
    {f : String} {w : Int}
    (h : generateOutputs enc baseName formats qW qA ws = .ok os)
    (hf : f = "webp" ∨ f = "avif") (hc : formats.contains f = true) :
    (os.filter (fun o => o.fmt == f && o.width == w)).length = ws.count w := by
  have step : ∀ os2 : List (Output β),
      (os2.filter (fun o => o.fmt == f && o.width == w)).length
        = ((os2.map outShape).filter
            (fun t => t.2.1 == f && t.2.2 == w)).length := by
    intro os2
    induction os2 with
    | nil => rfl
    | cons o rest ih =>
      by_cases ho : (o.fmt == f && o.width == w) = true
      · simp [List.filter_cons, outShape, ho, ih]
      · simp [List.filter_cons, outShape, ho, ih]
  rw [step, generateOutputs_ok_shape h, shapes_filter_count hf hc]

/-! ## Lemmas about the Configuration Resolver -/

theorem parseWidths_sorted (raw : Option String) :
    (parseWidths raw).Sorted (fun a b => a ≤ b) := by
  unfold parseWidths
  exact List.sorted_insertionSort _ _

theorem parseWidths_filter_sorted (raw : Option String) (origW : Int) :
    ((parseWidths raw).filter (fun w => w ≤ origW)).Sorted
      (fun a b => a ≤ b) :=
  List.Pairwise.filter _ (parseWidths_sorted raw)

theorem parseFormats_mem {raw : Option String} {f : String}
    (h : f ∈ parseFormats raw) : f = "webp" ∨ f = "avif" := by
  simp only [parseFormats] at h
  split at h
  · simp at h; exact Or.inl h
  · have := (List.mem_filter.mp h).2
    simp at this
    exact this

theorem sorted_head_min {w0 : Int} {rest : List Int}
    (h : (w0 :: rest).Sorted (fun a b => a ≤ b)) :
    ∀ w ∈ w0 :: rest, w0 ≤ w := by
  intro w hw
  rcases List.mem_cons.mp hw with rfl | hw2
  · exact le_refl w
  · exact (List.sorted_cons.mp h).1 w hw2

/-! ## Srcset bucket lemmas (Markup Composer) -/

theorem srcsetEntries_eq_shapes {β : Type} (fmt : String) :
    ∀ os : List (Output β),
      srcsetEntries fmt os = (os.map outShape).filterMap
        (fun t => if t.2.1 == fmt
          then some (t.1 ++ " " ++ toString t.2.2 ++ "w") else none)
  | [] => rfl
  | o :: rest => by
    have ih := srcsetEntries_eq_shapes fmt rest
    simp only [srcsetEntries] at ih
    by_cases ho : o.fmt = fmt
    · simp [srcsetEntries, List.filter_cons, List.filterMap_cons, outShape,
        ho, ih]
    · simp [srcsetEntries, List.filter_cons, List.filterMap_cons, outShape,
        ho, ih]

theorem srcsetEntries_of_gen {β : Type}
    {enc : Int → String → Option Int → Except String β}
    {baseName formats qW qA} {ws : List Int} {os : List (Output β)}
    (h : generateOutputs enc baseName formats qW qA ws = .ok os)
    (hcw : formats.contains "webp" = true)
    (hca : formats.contains "avif" = true) :
    srcsetEntries "avif" os = ws.map (srcsetEntry baseName "avif") ∧
    srcsetEntries "webp" os = ws.map (srcsetEntry baseName "webp") := by
  rw [srcsetEntries_eq_shapes, srcsetEntries_eq_shapes,
    generateOutputs_ok_shape h]
  clear h
  induction ws with
  | nil => simp
  | cons w ws ih =>
    rw [List.flatMap_cons, List.filterMap_append, List.filterMap_append,
      List.map_cons]
    constructor
    · rw [ih.1]
      unfold widthShape
      rw [if_pos hcw, if_pos hca]
      simp [srcsetEntry]
    · rw [ih.2]
      unfold widthShape
      rw [if_pos hcw, if_pos hca]
      simp [srcsetEntry]

/-! ## Per-file skip lemmas for the batch loop -/

theorem processBatchImage_probeError_none {β : Type}
    {probe : β → Except String (Option Int)}
    {enc : β → Int → String → Option Int → Except String β}
    {widths formats qW qA} {bf : FilePart β} {e : String}
    (h : probe bf.buffer = .error e) :
    processBatchImage probe enc widths formats qW qA bf = none := by
  simp [processBatchImage, h]

theorem processBatchImage_noWidth_none {β : Type}
    {probe : β → Except String (Option Int)}
    {enc : β → Int → String → Option Int → Except String β}
    {widths formats qW qA} {bf : FilePart β}
    (h : probe bf.buffer = .ok none ∨ probe bf.buffer = .ok (some 0)) :
    processBatchImage probe enc widths formats qW qA bf = none := by
  rcases h with h | h <;> simp [processBatchImage, h]

theorem processBatchImage_noFeasible_none {β : Type}
    {probe : β → Except String (Option Int)}
    {enc : β → Int → String → Option Int → Except String β}
    {widths formats qW qA} {bf : FilePart β} {origW : Int}
    (hp : probe bf.buffer = .ok (some origW)) (h0 : origW ≠ 0)
    (hemp : widths.filter (fun w => w ≤ origW) = []) :
    processBatchImage probe enc widths formats qW qA bf = none := by
  simp [processBatchImage, hp, h0, hemp]

theorem processBatchImage_codecFail_none {β : Type}
    {probe : β → Except String (Option Int)}
    {enc : β → Int → String → Option Int → Except String β}
    {widths formats qW qA} {bf : FilePart β} {origW : Int} {e2 : String}
    (hp : probe bf.buffer = .ok (some origW)) (h0 : origW ≠ 0)
    (hgen : generateOutputs (enc bf.buffer)
        (stripExt (bf.originalname.getD "image")) formats qW qA
        (widths.filter (fun w => w ≤ origW)) = .error e2) :
    processBatchImage probe enc widths formats qW qA bf = none := by
  by_cases hie : (widths.filter (fun w => w ≤ origW)).isEmpty = true
  · simp [processBatchImage, hp, h0, hie]
  · simp [processBatchImage, hp, h0, hie, hgen]

theorem batch_skip_preserves {β : Type}
    (probe : β → Except String (Option Int))
    (enc : β → Int → String → Option Int → Except String β)
    (widths : List Int) (formats : List String) (qW qA : Option Int)
    (fs1 fs2 : List (FilePart β)) (bf : FilePart β)
    (h : processBatchImage probe enc widths formats qW qA bf = none) :
    batchAllOutputs probe enc widths formats qW qA (fs1 ++ bf :: fs2)
      = batchAllOutputs probe enc widths formats qW qA (fs1 ++ fs2) ∧
    batchAllSnippets probe enc widths formats qW qA (fs1 ++ bf :: fs2)
      = batchAllSnippets probe enc widths formats qW qA (fs1 ++ fs2) := by
  constructor <;>
    simp [batchAllOutputs, batchAllSnippets, batchResults, List.map_append,
      List.filterMap_append, h]

theorem processBatch_error_of_empty {β : Type}
    (probe : β → Except String (Option Int))
    (enc : β → Int → String → Option Int → Except String β)
    (req : BatchReq β) (f : FilePart β) (fs : List (FilePart β))
    (hfiles : req.files = f :: fs)
    (hempty : batchAllOutputs probe enc (parseWidths req.widths)
        (parseFormats req.formats) (resolveQuality req.quality_webp "82")
        (resolveQuality req.quality_avif "55") req.files = []) :
    processBatch probe enc req = .error .noImagesProcessable := by
  rw [hfiles] at hempty
  unfold processBatch
  rw [hfiles]
  simp [hempty]

/-! ## Evaluation lemmas for the single-image handler -/

theorem processSingle_allWidthsExceed {β : Type}
    (probe : β → Except String (Option Int))
    (enc : β → Int → String → Option Int → Except String β)
    (req : SingleReq β) (file : FilePart β) (origW : Int)
    (hf : req.file = some file)
    (hp : probe file.buffer = .ok (some origW))
    (h0 : origW ≠ 0)
    (hgt : ∀ w ∈ parseWidths req.widths, origW < w) :
    processSingle probe enc req = .error (.allWidthsExceedOriginal origW) := by
  have hemp : (parseWidths req.widths).filter (fun w => w ≤ origW) = [] := by
    rw [List.filter_eq_nil_iff]
    intro w hw
    simp
    exact hgt w hw
  simp [processSingle, hf, hp, h0, hemp]

theorem processSingle_codecFailure {β : Type}
    (probe : β → Except String (Option Int))
    (enc : β → Int → String → Option Int → Except String β)
    (req : SingleReq β) (file : FilePart β) (origW : Int) (e2 : String)
    (hf : req.file = some file)
    (hp : probe file.buffer = .ok (some origW))
    (h0 : origW ≠ 0)
    (hgen : generateOutputs (enc file.buffer)
        (resolveBaseName req.basename file.originalname)
        (parseFormats req.formats) (resolveQuality req.quality_webp "82")
        (resolveQuality req.quality_avif "55")
        ((parseWidths req.widths).filter (fun w => w ≤ origW))
        = .error e2) :
    processSingle probe enc req = .error .codecFailure := by
  by_cases hie :
      ((parseWidths req.widths).filter (fun w => w ≤ origW)).isEmpty = true
  · rw [List.isEmpty_iff] at hie
    rw [hie] at hgen
    cases hgen
  · simp [processSingle, hf, hp, h0, hie, hgen]

theorem processSingle_ok_eval {β : Type}
    (probe : β → Except String (Option Int))
    (enc : β → Int → String → Option Int → Except String β)
    (req : SingleReq β) (file : FilePart β) (origW : Int)
    (os : List (Output β))
    (hf : req.file = some file)
    (hp : probe file.buffer = .ok (some origW))
    (h0 : origW ≠ 0)
    (hne : ((parseWidths req.widths).filter
        (fun w => w ≤ origW)).isEmpty = false)
    (hgen : generateOutputs (enc file.buffer)
        (resolveBaseName req.basename file.originalname)
        (parseFormats req.formats) (resolveQuality req.quality_webp "82")
        (resolveQuality req.quality_avif "55")
        ((parseWidths req.widths).filter (fun w => w ≤ origW)) = .ok os) :
    processSingle probe enc req = .ok (composeSingle
      (parseWidths req.widths) (parseFormats req.formats)
      (resolveQuality req.quality_webp "82")
      (resolveQuality req.quality_avif "55")
      (resolveBaseName req.basename file.originalname)
      (req.sizes.getD (defaultSizes (parseWidths req.widths)))
      ((parseWidths req.widths).filter (fun w => w ≤ origW)) os) := by
  simp [processSingle, hf, hp, h0, hne, hgen]

/-! ## Inversion of the batch handler -/

theorem processBatch_ok_inv {β : Type}
    {probe : β → Except String (Option Int)}
    {enc : β → Int → String → Option Int → Except String β}
    {req : BatchReq β} {s : BatchResult β}
    (h : processBatch probe enc req = .ok s) :
    s.allSnippets = batchAllSnippets probe enc (parseWidths req.widths)
      (parseFormats req.formats) (resolveQuality req.quality_webp "82")
      (resolveQuality req.quality_avif "55") req.files ∧
    s.combinedSnippets = mkCombinedSnippets req.files.length
      (parseWidths req.widths) (parseFormats req.formats) s.allSnippets := by
  cases hfs : req.files with
  | nil => unfold processBatch at h; rw [hfs] at h; cases h
  | cons f fs =>
    unfold processBatch at h
    rw [hfs] at h
    by_cases hie : (batchAllOutputs probe enc (parseWidths req.widths)
        (parseFormats req.formats) (resolveQuality req.quality_webp "82")
        (resolveQuality req.quality_avif "55") (f :: fs)).isEmpty = true
    · simp only [hie, if_true] at h; cases h
    · simp only [hie, if_false, Bool.false_eq_true] at h
      cases h
      exact ⟨rfl, rfl⟩


/-! ## Concrete fixtures used by counterexamples and witnesses -/

/-- A probe that always reports intrinsic width 1200. -/
def probeU : Unit → Except String (Option Int) := fun _ => .ok (some 1200)

/-- An always-succeeding encoder over unit buffers. -/
def encU : Unit → Int → String → Option Int → Except String Unit :=
  fun _ _ _ _ => .ok ()

/-- A probe keyed on the buffer value: buffer `1` has unreadable metadata,
buffer `2` reports no width, every other buffer has width 1000. -/
def probeN : Nat → Except String (Option Int) := fun b =>
  if b = 1 then .error "metadata" else
  if b = 2 then .ok none else .ok (some 1000)

/-- An encoder keyed on the buffer value: buffer `3` always fails. -/
def encN : Nat → Int → String → Option Int → Except String Nat :=
  fun b _ _ _ => if b = 3 then .error "sharp" else .ok 0

def reqC1 : SingleReq Unit :=
  { file := some ⟨some "photo.jpg", ()⟩, widths := some "abc",
    formats := none, quality_webp := none, quality_avif := none,
    basename := none, sizes := none }

def reqC2 : SingleReq Unit :=
  { file := some ⟨some "photo.jpg", ()⟩, widths := some "480,480",
    formats := none, quality_webp := none, quality_avif := none,
    basename := none, sizes := none }

def reqC5 : SingleReq Unit :=
  { file := some ⟨some "photo.jpg", ()⟩, widths := some "2000",
    formats := none, quality_webp := none, quality_avif := none,
    basename := none, sizes := none }

/-! ## The claims -/

/-- Claim C1, counterexample.  The claim states that a `widths` field
whose parse result is empty resolves to the default breakpoints and never
makes the request fail.  In the code the default applies only when the
field is absent: `widths = "abc"` resolves to the empty list, and the
request then fails at the feasible-width check even though the image is
perfectly wide enough for the default breakpoints. -/
theorem claim_C1_counterexample :
    parseWidths (some "abc") = [] ∧
    parseWidths (some "abc") ≠ [480, 768, 1200] ∧
    processSingle probeU encU reqC1 =
      .error (.allWidthsExceedOriginal 1200) :=
  ⟨by decide, by decide, rfl⟩

/-- Claim C1, amended: the default breakpoints `{480,768,1200}` are used
exactly when the `widths` field is absent; a present field whose parse
result is empty yields an empty resolved widths list, and such a request
fails at the feasible-width check with `AllWidthsExceedOriginal` (the
configuration-resolution step itself still raises nothing). -/
theorem claim_C1 {β : Type} (probe : β → Except String (Option Int))
    (enc : β → Int → String → Option Int → Except String β)
    (req : SingleReq β) (file : FilePart β) (origW : Int) :
    parseWidths none = [480, 768, 1200] ∧
    (req.widths = none → parseWidths req.widths = [480, 768, 1200]) ∧
    (parseWidths req.widths = [] → req.file = some file →
      probe file.buffer = .ok (some origW) → origW ≠ 0 →
      processSingle probe enc req =
        .error (.allWidthsExceedOriginal origW)) := by
  refine ⟨by decide, ?_, ?_⟩
  · intro h; rw [h]; decide
  · intro hpw hf hp h0
    refine processSingle_allWidthsExceed probe enc req file origW hf hp h0 ?_
    rw [hpw]
    intro w hw
    cases hw

/-- Claim C1, witness: the amended behaviour at the concrete malformed
input `widths = "abc"` over a 1200px-wide image. -/
theorem claim_C1_witness :
    processSingle probeU encU reqC1 =
      .error (.allWidthsExceedOriginal 1200) :=
  (claim_C1 probeU encU reqC1 ⟨some "photo.jpg", ()⟩ 1200).2.2
    (by decide) rfl rfl (by decide)

/-- Claim C2, counterexample.  The claim states the resolved widths are
duplicate-free and hence no two outputs of one image share a
`(width, format)` pair or file name.  The code sorts but never
deduplicates: `widths = "480,480"` resolves to `[480, 480]` and the
single-image pipeline then produces two outputs both named
`photo-480.webp`. -/
theorem claim_C2_counterexample :
    parseWidths (some "480,480") = [480, 480] ∧
    ¬ (parseWidths (some "480,480")).Nodup ∧
    (∃ s, processSingle probeU encU reqC2 = .ok s ∧
      ¬ (s.outputs.map (fun o => o.name)).Nodup) := by
  refine ⟨by decide, by decide, ?_⟩
  exact ⟨_, rfl, by decide⟩

/-- Claim C2, amended: the resolver sorts ascending but does not
deduplicate, so the resolved widths list may contain duplicates; each
occurrence of a feasible width produces one Output per requested format,
every Output is named `{baseName}-{width}.{format}`, and therefore a
duplicated width yields distinct Outputs sharing the same
`(width, format)` pair and file name (their multiplicity equals the
width's multiplicity in the resolved list). -/
theorem claim_C2 {β : Type} (enc : Int → String → Option Int → Except String β)
    (raw rawF : Option String) (baseName : String) (qW qA : Option Int)
    (ws : List Int) (os : List (Output β)) (f : String) (w : Int) :
    (parseWidths raw).Sorted (fun a b => a ≤ b) ∧
    (generateOutputs enc baseName (parseFormats rawF) qW qA ws = .ok os →
      (∀ o ∈ os, o.name = fileNameFor baseName o.width o.fmt) ∧
      ((parseFormats rawF).contains f = true →
        (os.filter (fun o => o.fmt == f && o.width == w)).length
          = ws.count w)) := by
  refine ⟨parseWidths_sorted raw, fun hgen => ⟨?_, fun hc => ?_⟩⟩
  · intro o ho
    exact (outputs_mem_props hgen o ho).2
  · have hmem : f ∈ parseFormats rawF := by
      have := List.elem_iff.mp hc
      exact this
    exact outputs_filter_count hgen (parseFormats_mem hmem) hc

/-- Claim C2, witness: the amended behaviour at `widths = [480, 480]`,
default format webp: the count of `(webp, 480)` outputs equals the
multiplicity 2. -/
theorem claim_C2_witness :
    (parseWidths (some "480,480")).Sorted (fun a b => a ≤ b) ∧
    (([⟨"image-480.webp", "webp", 480, ()⟩,
       ⟨"image-480.webp", "webp", 480, ()⟩] : List (Output Unit)).filter
        (fun o => o.fmt == "webp" && o.width == (480 : Int))).length
      = [(480 : Int), 480].count 480 :=
  ⟨(claim_C2 (fun _ _ _ => .ok ()) (some "480,480") none "image" none none
      [480, 480]
      [⟨"image-480.webp", "webp", 480, ()⟩,
       ⟨"image-480.webp", "webp", 480, ()⟩] "webp" 480).1,
   (((claim_C2 (fun _ _ _ => .ok ()) (some "480,480") none "image" none none
      [480, 480]
      [⟨"image-480.webp", "webp", 480, ()⟩,
       ⟨"image-480.webp", "webp", 480, ()⟩] "webp" 480).2 rfl).2 (by decide))⟩

/-- Claim C3, counterexample.  The claim states a non-numeric quality
value resolves to the format default (82 webp / 55 avif).  In the code
`parseInt` yields `NaN` and `Math.min(100, Math.max(1, NaN))` is `NaN`,
so the resolved quality is `NaN`, not the default. -/
theorem claim_C3_counterexample :
    resolveQuality (some "high") "82" = none ∧
    resolveQuality (some "high") "82" ≠ some 82 ∧
    resolveQuality (some "fast") "55" ≠ some 55 := by
  refine ⟨by decide, by decide, by decide⟩

/-- Claim C3, amended: an absent quality field resolves to the default
(82 webp / 55 avif); numeric values are clamped to `[1,100]` (`0` gives
`1`, `500` gives `100`); a non-numeric value resolves to `NaN`
(modelled as `none`), which is passed to the codec instead of the
default. -/
theorem claim_C3 (s : String) :
    resolveQuality none "82" = some 82 ∧
    resolveQuality none "55" = some 55 ∧
    (∀ d : String, resolveQuality (some "0") d = some 1) ∧
    (∀ d : String, resolveQuality (some "500") d = some 100) ∧
    (jsParseInt s.data = none →
      resolveQuality (some s) "82" = none ∧
      resolveQuality (some s) "55" = none) := by
  refine ⟨by decide, by decide, fun d => rfl, fun d => rfl, fun h => ?_⟩
  constructor <;> simp [resolveQuality, h]

/-- Claim C3, witness: the amended behaviour at the concrete non-numeric
input `"oops"`. -/
theorem claim_C3_witness :
    resolveQuality (some "oops") "82" = none ∧
    resolveQuality (some "oops") "55" = none :=
  (claim_C3 "oops").2.2.2.2 (by decide)

/-- Claim C4, counterexample.  The claim states the resolved base name
equals the `basename` field exactly when provided, and that batch mode
honours the same optional fields.  The extension-stripping regex is in
fact applied to the provided value too: `basename = "photo.final"`
resolves to `"photo"`. -/
theorem claim_C4_counterexample :
    resolveBaseName (some "photo.final") (some "x.png") = "photo" ∧
    resolveBaseName (some "photo.final") (some "x.png") ≠ "photo.final" := by
  exact ⟨by decide, by decide⟩

/-- Claim C4, amended: the resolved base name is the `basename` field
with a trailing extension stripped when that field is provided (the
strip applies to the provided value as well); otherwise the original
file name extension-stripped; otherwise the literal `"image"`.  The
batch endpoint ignores a `basename` field entirely, deriving each
image's base name from its own file name. -/
theorem claim_C4 {β : Type} (probe : β → Except String (Option Int))
    (enc : β → Int → String → Option Int → Except String β)
    (req : BatchReq β) (b o : String) (b2 : Option String) :
    (∀ o2 : Option String, resolveBaseName (some b) o2 = stripExt b) ∧
    resolveBaseName none (some o) = stripExt o ∧
    resolveBaseName none none = "image" ∧
    processBatch probe enc { req with basename := b2 }
      = processBatch probe enc req := by
    exact ⟨fun o2 => rfl, rfl, rfl, rfl⟩

/-- Claim C5: when the probe succeeds but every resolved width strictly
exceeds the intrinsic width, the single-image request fails with
`AllWidthsExceedOriginal(intrinsicWidth)` whatever the codec does — in
particular no codec output can occur in the result, which is the same
error for every `enc`. -/
theorem claim_C5 {β : Type} (probe : β → Except String (Option Int))
    (req : SingleReq β) (file : FilePart β) (origW : Int)
    (hf : req.file = some file)
    (hp : probe file.buffer = .ok (some origW))
    (h0 : origW ≠ 0)
    (hgt : ∀ w ∈ parseWidths req.widths, origW < w) :
    ∀ enc : β → Int → String → Option Int → Except String β,
      processSingle probe enc req =
        .error (.allWidthsExceedOriginal origW) :=
  fun enc =>
    processSingle_allWidthsExceed probe enc req file origW hf hp h0 hgt

/-- Claim C5, witness: `widths = "2000"` over a 1200px-wide image fails
with `AllWidthsExceedOriginal(1200)`. -/
theorem claim_C5_witness :
    processSingle probeU encU reqC5 =
      .error (.allWidthsExceedOriginal 1200) :=
  claim_C5 probeU reqC5 ⟨some "photo.jpg", ()⟩ 1200 rfl rfl
    (by decide) (by decide) encU


def bfGood : FilePart Nat := ⟨some "good.jpg", 0⟩

def bfMeta : FilePart Nat := ⟨some "meta.jpg", 1⟩

def bfNoW : FilePart Nat := ⟨some "now.jpg", 2⟩

def bfSharp : FilePart Nat := ⟨some "sharp.jpg", 3⟩

def breqBad : BatchReq Nat :=
  { files := [bfMeta], widths := none, formats := none,
    quality_webp := none, quality_avif := none, basename := none,
    sizes := none }

/-- Claim C6: in a batch, a file failing at the metadata-probe stage
(thrown metadata error, missing or zero width), the
all-widths-exceed-original stage, or the codec stage is skipped
(`continue`); skipping one file leaves every other file's outputs and
snippets unchanged; and when no file contributed any output the whole
batch fails with `NoImagesProcessable`, producing no archive. -/
theorem claim_C6 {β : Type} (probe : β → Except String (Option Int))
    (enc : β → Int → String → Option Int → Except String β)
    (widths : List Int) (formats : List String) (qW qA : Option Int) :
    (∀ (bf : FilePart β) (e : String), probe bf.buffer = .error e →
      processBatchImage probe enc widths formats qW qA bf = none) ∧
    (∀ bf : FilePart β,
      probe bf.buffer = .ok none ∨ probe bf.buffer = .ok (some 0) →
      processBatchImage probe enc widths formats qW qA bf = none) ∧
    (∀ (bf : FilePart β) (origW : Int),
      probe bf.buffer = .ok (some origW) → origW ≠ 0 →
      widths.filter (fun w => w ≤ origW) = [] →
      processBatchImage probe enc widths formats qW qA bf = none) ∧
    (∀ (bf : FilePart β) (origW : Int) (e2 : String),
      probe bf.buffer = .ok (some origW) → origW ≠ 0 →
      generateOutputs (enc bf.buffer) (stripExt (bf.originalname.getD "image"))
        formats qW qA (widths.filter (fun w => w ≤ origW)) = .error e2 →
      processBatchImage probe enc widths formats qW qA bf = none) ∧
    (∀ (fs1 fs2 : List (FilePart β)) (bf : FilePart β),
      processBatchImage probe enc widths formats qW qA bf = none →
      batchAllOutputs probe enc widths formats qW qA (fs1 ++ bf :: fs2)
        = batchAllOutputs probe enc widths formats qW qA (fs1 ++ fs2) ∧
      batchAllSnippets probe enc widths formats qW qA (fs1 ++ bf :: fs2)
        = batchAllSnippets probe enc widths formats qW qA (fs1 ++ fs2)) ∧
    (∀ (req : BatchReq β) (f : FilePart β) (fs : List (FilePart β)),
      req.files = f :: fs →
      batchAllOutputs probe enc (parseWidths req.widths)
        (parseFormats req.formats) (resolveQuality req.quality_webp "82")
        (resolveQuality req.quality_avif "55") req.files = [] →
      processBatch probe enc req = .error .noImagesProcessable) := by
  refine ⟨?_, ?_, ?_, ?_, ?_, ?_⟩
  · intro bf e h
    exact processBatchImage_probeError_none h
  · intro bf h
    exact processBatchImage_noWidth_none h
  · intro bf origW hp h0 hemp
    exact processBatchImage_noFeasible_none hp h0 hemp
  · intro bf origW e2 hp h0 hgen
    exact processBatchImage_codecFail_none hp h0 hgen
  · intro fs1 fs2 bf h
    exact batch_skip_preserves probe enc widths formats qW qA fs1 fs2 bf h
  · intro req f fs hfiles hempty
    exact processBatch_error_of_empty probe enc req f fs hfiles hempty

/-- Claim C6, witness: concrete skips for each failure stage (unreadable
metadata, missing width, all widths infeasible, sharp failure), a skip
leaving the good file's contribution unchanged, and an all-failing batch
ending in `NoImagesProcessable`. -/
theorem claim_C6_witness :
    processBatchImage probeN encN [480] ["webp"] none none bfMeta = none ∧
    processBatchImage probeN encN [480] ["webp"] none none bfNoW = none ∧
    processBatchImage probeN encN [2000] ["webp"] none none bfGood = none ∧
    processBatchImage probeN encN [480] ["webp"] none none bfSharp = none ∧
    batchAllOutputs probeN encN [480] ["webp"] none none [bfGood, bfMeta]
      = batchAllOutputs probeN encN [480] ["webp"] none none [bfGood] ∧
    processBatch probeN encN breqBad = .error .noImagesProcessable := by
  refine ⟨(claim_C6 probeN encN [480] ["webp"] none none).1 bfMeta
      "metadata" rfl,
    (claim_C6 probeN encN [480] ["webp"] none none).2.1 bfNoW (Or.inl rfl),
    (claim_C6 probeN encN [2000] ["webp"] none none).2.2.1 bfGood 1000 rfl
      (by decide) (by decide),
    (claim_C6 probeN encN [480] ["webp"] none none).2.2.2.1 bfSharp 1000
      "sharp" rfl (by decide) rfl,
    ?_,
    (claim_C6 probeN encN [480] ["webp"] none none).2.2.2.2.2 breqBad
      bfMeta [] rfl (by decide)⟩
  exact ((claim_C6 probeN encN [480] ["webp"] none none).2.2.2.2.1
    [bfGood] [] bfMeta rfl).1

def req7 : SingleReq Nat :=
  { file := some ⟨some "sharp.jpg", 3⟩, widths := some "480",
    formats := none, quality_webp := none, quality_avif := none,
    basename := none, sizes := none }

/-- Claim C7: in either mode, if the codec fails on any
(feasible width, requested format) pair that generation reaches, the
image contributes no Output at all: the single-image request fails with
`CodecFailure` (so no archive is produced), and in a batch the image's
loop iteration yields nothing. -/
theorem claim_C7 {β : Type} (probe : β → Except String (Option Int))
    (enc : β → Int → String → Option Int → Except String β)
    (req : SingleReq β) (file : FilePart β) (origW w : Int) (e : String)
    (probeB : β → Except String (Option Int))
    (encB : β → Int → String → Option Int → Except String β)
    (widthsB : List Int) (formatsB : List String) (qWB qAB : Option Int)
    (bf : FilePart β) (origWB wB : Int) (eB : String)
    (hf : req.file = some file)
    (hp : probe file.buffer = .ok (some origW))
    (h0 : origW ≠ 0)
    (hw : w ∈ (parseWidths req.widths).filter (fun x => x ≤ origW))
    (hfail : ((parseFormats req.formats).contains "webp" = true ∧
        enc file.buffer w "webp" (resolveQuality req.quality_webp "82")
          = .error e)
      ∨ ((parseFormats req.formats).contains "avif" = true ∧
        enc file.buffer w "avif" (resolveQuality req.quality_avif "55")
          = .error e))
    (hpB : probeB bf.buffer = .ok (some origWB))
    (h0B : origWB ≠ 0)
    (hwB : wB ∈ widthsB.filter (fun x => x ≤ origWB))
    (hfailB : (formatsB.contains "webp" = true ∧
        encB bf.buffer wB "webp" qWB = .error eB)
      ∨ (formatsB.contains "avif" = true ∧
        encB bf.buffer wB "avif" qAB = .error eB)) :
    processSingle probe enc req = .error .codecFailure ∧
    processBatchImage probeB encB widthsB formatsB qWB qAB bf = none := by
  constructor
  · obtain ⟨e2, hgen⟩ := generateOutputs_error_of_fail hw hfail
    exact processSingle_codecFailure probe enc req file origW e2 hf hp h0 hgen
  · obtain ⟨e2, hgen⟩ := generateOutputs_error_of_fail hwB hfailB
    exact processBatchImage_codecFail_none hpB h0B hgen

/-- Claim C7, witness: a codec that fails on buffer 3 makes the
single-image request fail with `CodecFailure` and makes the same file be
skipped inside a batch. -/
theorem claim_C7_witness :
    processSingle probeN encN req7 = .error .codecFailure ∧
    processBatchImage probeN encN [480] ["webp"] none none bfSharp
      = none :=
  claim_C7 probeN encN req7 ⟨some "sharp.jpg", 3⟩ 1000 480 "sharp"
    probeN encN [480] ["webp"] none none bfSharp 1000 480 "sharp"
    rfl rfl (by decide) (by decide) (Or.inl ⟨by decide, rfl⟩)
    rfl (by decide) (by decide) (Or.inl ⟨by decide, rfl⟩)

def osC8 : List (Output Unit) :=
  [⟨"img-480.webp", "webp", 480, ()⟩, ⟨"img-480.avif", "avif", 480, ()⟩,
   ⟨"img-768.webp", "webp", 768, ()⟩, ⟨"img-768.avif", "avif", 768, ()⟩]

/-- Claim C8: for a valid configuration (whose resolved widths are
duplicate-free, as the spec's data model requires), the feasible widths
are exactly the resolved widths not exceeding the intrinsic width, in
ascending order; every generated Output's width is feasible; and for
each feasible width and each requested format there is exactly one
Output. -/
theorem claim_C8 {β : Type} (enc : Int → String → Option Int → Except String β)
    (rawW rawF : Option String) (baseName : String) (qW qA : Option Int)
    (origW : Int) (os : List (Output β))
    (hnd : (parseWidths rawW).Nodup)
    (hgen : generateOutputs enc baseName (parseFormats rawF) qW qA
        ((parseWidths rawW).filter (fun w => w ≤ origW)) = .ok os) :
    ((parseWidths rawW).filter (fun w => w ≤ origW)).Sorted
      (fun a b => a ≤ b) ∧
    (∀ w ∈ (parseWidths rawW).filter (fun w => w ≤ origW),
      w ∈ parseWidths rawW ∧ w ≤ origW) ∧
    (∀ w ∈ parseWidths rawW, w ≤ origW →
      w ∈ (parseWidths rawW).filter (fun w => w ≤ origW)) ∧
    (∀ o ∈ os, o.width ∈ (parseWidths rawW).filter (fun w => w ≤ origW)) ∧
    (∀ w ∈ (parseWidths rawW).filter (fun w => w ≤ origW),
      ∀ f : String, (parseFormats rawF).contains f = true →
        (os.filter (fun o => o.fmt == f && o.width == w)).length = 1) := by
  refine ⟨parseWidths_filter_sorted rawW origW, ?_, ?_, ?_, ?_⟩
  · intro w hw
    have h := List.mem_filter.mp hw
    exact ⟨h.1, by simpa using h.2⟩
  · intro w hw hle
    exact List.mem_filter.mpr ⟨hw, by simpa using hle⟩
  · intro o ho
    exact (outputs_mem_props hgen o ho).1
  · intro w hw f hc
    have hmem : f ∈ parseFormats rawF := List.elem_iff.mp hc
    rw [outputs_filter_count hgen (parseFormats_mem hmem) hc]
    exact List.count_eq_one_of_mem (hnd.filter _) hw

/-- Claim C8, witness: `widths = "480,768"`, `formats = "webp,avif"`,
intrinsic width 1000: the feasible widths are sorted and there is
exactly one `(webp, 480)` output. -/
theorem claim_C8_witness :
    ((parseWidths (some "480,768")).filter
      (fun w => w ≤ (1000 : Int))).Sorted (fun a b => a ≤ b) ∧
    (osC8.filter
      (fun o => o.fmt == "webp" && o.width == (480 : Int))).length = 1 := by
  have h := claim_C8 (fun _ _ _ => (.ok () : Except String Unit))
    (some "480,768") (some "webp,avif") "img" none none 1000 osC8
    (by decide) rfl
  exact ⟨h.1, h.2.2.2.2 480 (by decide) "webp" (by decide)⟩


def reqC9 : SingleReq Unit :=
  { file := some ⟨some "photo.jpg", ()⟩, widths := some "480",
    formats := some "webp,webp", quality_webp := none,
    quality_avif := none, basename := none, sizes := none }

/-- Claim C9, counterexample: with `formats = "webp,webp"` exactly one
distinct format is requested, yet the parsed formats list has length 2,
so the handler emits a `<picture>` container different from `imgTag`. -/
theorem claim_C9_counterexample :
    parseFormats (some "webp,webp") = ["webp", "webp"] ∧
    (parseFormats (some "webp,webp")).dedup = ["webp"] ∧
    (∃ s, processSingle probeU encU reqC9 = .ok s ∧
      s.pictureSnippet ≠ s.imgSnippet) := by
  refine ⟨by decide, by decide, ?_⟩
  exact ⟨_, rfl, by decide⟩

/-- Claim C9, amended: `pictureTag` equals `imgTag` exactly when the
parsed formats list has length at most 1 — a single format requested
twice (`"webp,webp"`) yields length 2 and hence a `<picture>` container,
so "exactly one format requested" must be read as list length 1, not one
distinct format.  For `formats = {webp, avif}` with n feasible widths,
the container holds the avif source before the webp source, each source
lists n srcset entries following the ascending feasible widths, and the
fallback `img`'s `src` is the webp output at the smallest feasible
width. -/
theorem claim_C9 {β : Type} (probe : β → Except String (Option Int))
    (enc : β → Int → String → Option Int → Except String β)
    (req : SingleReq β) (file : FilePart β) (origW w0 : Int)
    (rest : List Int) (os : List (Output β))
    (hf : req.file = some file)
    (hp : probe file.buffer = .ok (some origW))
    (h0 : origW ≠ 0)
    (hsplit : (parseWidths req.widths).filter (fun w => w ≤ origW)
      = w0 :: rest)
    (hgen : generateOutputs (enc file.buffer)
        (resolveBaseName req.basename file.originalname)
        (parseFormats req.formats) (resolveQuality req.quality_webp "82")
        (resolveQuality req.quality_avif "55") (w0 :: rest) = .ok os) :
    ∃ s, processSingle probe enc req = .ok s ∧
      s.outputs = os ∧
      ((parseFormats req.formats).length ≤ 1 →
        s.pictureSnippet = s.imgSnippet) ∧
      (parseFormats req.formats = ["webp", "avif"] →
        srcsetEntries "avif" os = (w0 :: rest).map
          (srcsetEntry (resolveBaseName req.basename file.originalname)
            "avif") ∧
        srcsetEntries "webp" os = (w0 :: rest).map
          (srcsetEntry (resolveBaseName req.basename file.originalname)
            "webp") ∧
        (srcsetEntries "avif" os).length = (w0 :: rest).length ∧
        (srcsetEntries "webp" os).length = (w0 :: rest).length ∧
        (w0 :: rest).Sorted (fun a b => a ≤ b) ∧
        (∀ w ∈ w0 :: rest, w0 ≤ w) ∧
        s.pictureSnippet =
          "<picture>\n  " ++
          mkSourceTag "avif" (joinSep ", " (srcsetEntries "avif" os))
            s.sizesIn ++
          "\n  " ++
          mkSourceTag "webp" (joinSep ", " (srcsetEntries "webp" os))
            s.sizesIn ++
          "\n  <img src=\"" ++
          fileNameFor (resolveBaseName req.basename file.originalname)
            w0 "webp" ++
          "\" alt=\"\" loading=\"lazy\" decoding=\"async\">\n</picture>") := by
  have hne : ((parseWidths req.widths).filter
      (fun w => w ≤ origW)).isEmpty = false := by
    rw [hsplit]; rfl
  have hgen2 : generateOutputs (enc file.buffer)
      (resolveBaseName req.basename file.originalname)
      (parseFormats req.formats) (resolveQuality req.quality_webp "82")
      (resolveQuality req.quality_avif "55")
      ((parseWidths req.widths).filter (fun w => w ≤ origW)) = .ok os := by
    rw [hsplit]; exact hgen
  have heval := processSingle_ok_eval probe enc req file origW os hf hp h0
    hne hgen2
  refine ⟨_, heval, rfl, ?_, ?_⟩
  · intro hle
    have hnlt : ¬ 1 < (parseFormats req.formats).length := by omega
    show (composeMarkup (parseFormats req.formats)
        (resolveBaseName req.basename file.originalname)
        ((parseWidths req.widths).filter (fun w => w ≤ origW))
        (req.sizes.getD (defaultSizes (parseWidths req.widths))) os).2 = _
    simp only [composeMarkup, mkPictureSnippet, if_neg hnlt]
    rfl
  · intro hfmt
    have hcw : (parseFormats req.formats).contains "webp" = true := by
      rw [hfmt]; decide
    have hca : (parseFormats req.formats).contains "avif" = true := by
      rw [hfmt]; decide
    obtain ⟨ha, hw⟩ := srcsetEntries_of_gen hgen hcw hca
    refine ⟨ha, hw, ?_, ?_, ?_, ?_, ?_⟩
    · rw [ha, List.length_map]
    · rw [hw, List.length_map]
    · exact hsplit ▸ parseWidths_filter_sorted req.widths origW
    · exact sorted_head_min (hsplit ▸ parseWidths_filter_sorted req.widths origW)
    · show (composeMarkup (parseFormats req.formats)
          (resolveBaseName req.basename file.originalname)
          ((parseWidths req.widths).filter (fun w => w ≤ origW))
          (req.sizes.getD (defaultSizes (parseWidths req.widths))) os).2 = _
      rw [hsplit]
      simp only [composeMarkup, mkPictureSnippet, hfmt]
      rw [if_pos (by decide : 1 < (["webp", "avif"] : List String).length)]
      rw [ha, hw]
      rw [if_neg (by simp), if_neg (by simp)]
      rw [if_pos (by decide : (["webp", "avif"] : List String).contains "webp" = true)]
      rfl

def breqMix : BatchReq Nat :=
  { files := [bfGood, bfMeta], widths := none, formats := none,
    quality_webp := none, quality_avif := none, basename := none,
    sizes := none }

/-- Claim C10: the header of the combined snippets document always
interpolates the number of uploaded files, skipped files included. -/
theorem claim_C10 {β : Type} (probe : β → Except String (Option Int))
    (enc : β → Int → String → Option Int → Except String β)
    (req : BatchReq β) (s : BatchResult β)
    (h : processBatch probe enc req = .ok s) :
    ∃ t, s.combinedSnippets =
      "<!-- WebReady Batch Output -->\n<!-- " ++
      toString req.files.length ++ " images processed -->" ++ t := by
  obtain ⟨hsnip, hcomb⟩ := processBatch_ok_inv h
  rw [hcomb]
  exact ⟨_, rfl⟩

/-- Claim C10, witness: a 2-file batch in which the second file has
unreadable metadata produces exactly one per-image snippet, yet the
header still says 2 images. -/
theorem claim_C10_witness :
    ∃ s, processBatch probeN encN breqMix = .ok s ∧
      s.allSnippets.length = 1 ∧
      ∃ t, s.combinedSnippets =
        "<!-- WebReady Batch Output -->\n<!-- " ++
        toString (2 : Nat) ++ " images processed -->" ++ t := by
  refine ⟨_, rfl, ?_, ?_⟩
  · decide
  · exact claim_C10 probeN encN breqMix _ rfl


def reqC9w : SingleReq Unit :=
  { file := some ⟨some "photo.jpg", ()⟩, widths := some "480,768",
    formats := some "webp,avif", quality_webp := none,
    quality_avif := none, basename := none, sizes := none }

def osC9 : List (Output Unit) :=
  [⟨"photo-480.webp", "webp", 480, ()⟩,
   ⟨"photo-480.avif", "avif", 480, ()⟩,
   ⟨"photo-768.webp", "webp", 768, ()⟩,
   ⟨"photo-768.avif", "avif", 768, ()⟩]

/-- Claim C9, witness: the amended behaviour for
`widths = "480,768"`, `formats = "webp,avif"` over a 1200px image. -/
theorem claim_C9_witness :
    ∃ s, processSingle probeU encU reqC9w = .ok s ∧
      s.outputs = osC9 ∧
      srcsetEntries "avif" osC9 =
        [srcsetEntry "photo" "avif" 480, srcsetEntry "photo" "avif" 768] ∧
      (srcsetEntries "webp" osC9).length = 2 := by
  obtain ⟨s, hok, houts, hle, hstruct⟩ :=
    claim_C9 probeU encU reqC9w ⟨some "photo.jpg", ()⟩ 1200 480 [768] osC9
      rfl rfl (by decide) (by decide) rfl
  obtain ⟨ha, hw, hla, hlw, hsort, hmin, hpic⟩ := hstruct (by decide)
  exact ⟨s, hok, houts, by rw [ha]; rfl, by rw [hlw]; rfl⟩

end WebReady
